import Mathlib

/-!
Shallow embedding of the glutin X11 backend (`src/x11/window/mod.rs`).

Native X11 / GLX calls are foreign functions; their observable behaviour is
modelled by explicit inputs (a `NativeEnv` record of call outcomes, the list of
native events delivered on the connection) and explicit outputs (traces of the
native calls issued, the set of native resources currently allocated).
Machine integer casts (`as u8`, `as u16`, `as u32`) are modelled with explicit
`% 2^w` arithmetic on `Nat`/`Int`.
-/

/-- Cursor state enum used by `Window::set_cursor_state` (the `CursorState`
type itself lives outside `src/`; per the spec it is the two-state enum
{Normal, Grab}). -/
inductive CursorState where
  | normal
  | grab
  deriving DecidableEq, Repr

/-- Return codes of `ffi::XGrabPointer` distinguished by the source's match:
`GrabSuccess` versus the four refusal codes. -/
inductive GrabResult where
  | success
  | alreadyGrabbed
  | grabInvalidTime
  | grabNotViewable
  | grabFrozen
  deriving DecidableEq, Repr

/-- Observable effects of `set_cursor_state`: assignments to the stored
`cursor_state` cell and the native pointer grab/ungrab calls, in program
order. -/
inductive CursorCall where
  | storeState (s : CursorState)
  | xUngrabPointer
  | xGrabPointer
  deriving DecidableEq, Repr

/-- How `set_cursor_state` returns: `Ok(())`, the
`Err("cursor could not be grabbed")` result, or the `unimplemented!()`
runtime failure of the catch-all arm. -/
inductive CursorResult where
  | ok
  | errGrabRefused
  | panicked
  deriving DecidableEq, Repr

/-- Full outcome of one `set_cursor_state` call: the returned result, the
value left in the `cursor_state` cell, and the trace of effects issued. -/
structure SetCursorOutcome where
  result : CursorResult
  newState : CursorState
  calls : List CursorCall
  deriving DecidableEq, Repr

/-- Embedding of `Window::set_cursor_state` (src/x11/window/mod.rs:870-907).
`requested` is the argument, `stored` the current content of the
`cursor_state` mutex, `grab` the outcome `ffi::XGrabPointer` would return.
The `(Normal, Grab)` arm ungrabs then stores Normal; the `(Grab, Normal)` arm
stores Grab first and then issues the grab; every other combination hits
`_ => unimplemented!()`, which unwinds without touching the cell. -/
def set_cursor_state (requested stored : CursorState) (grab : GrabResult) :
    SetCursorOutcome :=
  match requested, stored with
  | .normal, .grab =>
      { result := .ok, newState := .normal,
        calls := [.xUngrabPointer, .storeState .normal] }
  | .grab, .normal =>
      match grab with
      | .success =>
          { result := .ok, newState := .grab,
            calls := [.storeState .grab, .xGrabPointer] }
      | _ =>
          { result := .errGrabRefused, newState := .grab,
            calls := [.storeState .grab, .xGrabPointer] }
  | _, _ => { result := .panicked, newState := stored, calls := [] }

/-- C2 counterexample: the claim says a same-state request (Normal→Normal or
Grab→Grab) is a no-op that returns success; in the source both land on the
`_ => unimplemented!()` arm and raise a runtime failure instead of returning
`Ok`. -/
theorem c2_same_state_not_success :
    ¬ ((set_cursor_state .normal .normal .success).result = .ok ∧
       (set_cursor_state .grab .grab .success).result = .ok) := by
  decide

/-- C2 (amended): Normal→Grab→Normal round-trips to the Normal state with
both calls returning success; but requesting the state already held (the only
transitions outside Normal↔Grab for this two-state enum) raises the
`unimplemented!()` runtime failure rather than returning a result, leaving the
stored state unchanged. -/
theorem c2_cursor_state_machine :
    set_cursor_state .grab .normal .success =
      { result := .ok, newState := .grab,
        calls := [.storeState .grab, .xGrabPointer] } ∧
    (∀ g : GrabResult, set_cursor_state .normal .grab g =
      { result := .ok, newState := .normal,
        calls := [.xUngrabPointer, .storeState .normal] }) ∧
    (∀ (s : CursorState) (g : GrabResult),
      set_cursor_state s s g =
        { result := .panicked, newState := s, calls := [] }) := by
  refine ⟨rfl, fun g => rfl, fun s g => ?_⟩
  cases s <;> rfl

/-- C10: in the Normal→Grab transition the stored state is assigned Grab
before the native grab call is issued, so a refused grab returns the error
with the stored state already reading Grab (non-atomic error); consequently a
subsequent Grab request with stored state Grab falls into the same-state arm
and issues no further `XGrabPointer` call (no retry). -/
theorem c10_grab_error_not_atomic (g : GrabResult) (hg : g ≠ .success) :
    (set_cursor_state .grab .normal g).calls =
      [.storeState .grab, .xGrabPointer] ∧
    (set_cursor_state .grab .normal g).result = .errGrabRefused ∧
    (set_cursor_state .grab .normal g).newState = .grab ∧
    (∀ g2 : GrabResult,
      CursorCall.xGrabPointer ∉ (set_cursor_state .grab .grab g2).calls) := by
  refine ⟨?_, ?_, ?_, fun g2 => by simp [set_cursor_state]⟩ <;>
    cases g <;> first | rfl | exact absurd rfl hg

/-- C10 witness: the theorem instantiated at the concrete refusal code
`AlreadyGrabbed`. -/
theorem c10_grab_error_not_atomic_witness :
    (set_cursor_state .grab .normal .alreadyGrabbed).calls =
      [.storeState .grab, .xGrabPointer] ∧
    (set_cursor_state .grab .normal .alreadyGrabbed).result =
      .errGrabRefused ∧
    (set_cursor_state .grab .normal .alreadyGrabbed).newState = .grab ∧
    (∀ g2 : GrabResult,
      CursorCall.xGrabPointer ∉ (set_cursor_state .grab .grab g2).calls) :=
  c10_grab_error_not_atomic .alreadyGrabbed (by decide)

/-- Element state of a key or button event (`events::ElementState`). -/
inductive ElementState where
  | pressed
  | released
  deriving DecidableEq, Repr

/-- Mouse buttons produced by the pump (`events::MouseButton`). -/
inductive MouseButton where
  | left
  | right
  | middle
  deriving DecidableEq, Repr

/-- Portable event vocabulary (`events::Event`) as produced by this backend.
`mouseWheel dx dy` stands for `MouseWheel(LineDelta(dx, dy))`; the only
deltas the backend synthesizes are the exact values 0.0 and ±1.0, modelled
as integers. `resized` carries the `as u32` casts of the native geometry. -/
inductive Event where
  | closed
  | awakened
  | resized (width height : Nat)
  | refresh
  | mouseMoved (x y : Int)
  | keyboardInput (state : ElementState) (scancode : Nat) (vkey : Option Nat)
  | receivedCharacter (c : Char)
  | mouseInput (state : ElementState) (button : MouseButton)
  | mouseWheel (dx dy : Int)
  deriving DecidableEq, Repr

/-- One native event record as delivered by the connection, carrying the data
the pump reads from it.  For key events, `decoded` is the character sequence
obtained from `Xutf8LookupString` on the input context (the UTF-8 decode of
the looked-up buffer) and `vkey` the `events::keycode_to_element` result for
the keysym of the keycode — both are outcomes of native/lookup calls and are
therefore recorded on the event. -/
inductive XEvent where
  | keymapNotify
  | clientMessage (payload : Int)
  | configureNotify (width height : Int)
  | expose
  | motionNotify (x y : Int)
  | keyPress (keycode : Nat) (decoded : List Char) (vkey : Option Nat)
  | keyRelease (keycode : Nat) (decoded : List Char) (vkey : Option Nat)
  | buttonPress (button : Nat)
  | buttonRelease (button : Nat)
  | other
  deriving DecidableEq, Repr

/-- The mutable window state consulted by the event pump: the `is_closed`
atomic flag, the `current_size` cell, the `pending_events` queue, and the
registered `wm_delete_window` atom. -/
structure PumpState where
  is_closed : Bool
  current_size : Int × Int
  pending_events : List Event
  wm_delete_window : Int
  deriving DecidableEq, Repr

/-- `as u32` cast of a C `int`. -/
def u32cast (i : Int) : Nat := (i % (2 ^ 32 : Int)).toNat

/-- `as u8` cast of the native keycode field. -/
def u8cast (n : Nat) : Nat := n % 2 ^ 8

/-- Result of translating one native event inside the pump loop: either a
portable event is returned from `next()` with the updated window state, or
the loop continues with the updated state. -/
inductive ProcessResult where
  | emit (e : Event) (s : PumpState)
  | cont (s : PumpState)
  deriving DecidableEq, Repr

/-- Window state after a translation step, whether or not an event was
returned. -/
def ProcessResult.state : ProcessResult → PumpState
  | .emit _ s => s
  | .cont s => s

/-- The `ButtonPress | ButtonRelease` arm of the pump
(src/x11/window/mod.rs:233-265): buttons 1/2/3 return `MouseInput` with
Left/Middle/Right; buttons 4/5 push one `MouseWheel(LineDelta(0.0, ±1.0))`
onto `pending_events` and return nothing (the loop continues); any other
button code is ignored. -/
def process_button (state : ElementState) (button : Nat) (s : PumpState) :
    ProcessResult :=
  match button with
  | 1 => .emit (.mouseInput state .left) s
  | 2 => .emit (.mouseInput state .middle) s
  | 3 => .emit (.mouseInput state .right) s
  | 4 => .cont { s with pending_events := s.pending_events ++ [.mouseWheel 0 1] }
  | 5 => .cont { s with pending_events := s.pending_events ++ [.mouseWheel 0 (-1)] }
  | _ => .cont s

/-- Translation of one native event record, mirroring the `match
xev.get_type()` dispatch of `PollEventsIterator::next`
(src/x11/window/mod.rs:153-268). -/
def process_event (xev : XEvent) (s : PumpState) : ProcessResult :=
  match xev with
  | .keymapNotify => .cont s
  | .clientMessage payload =>
      if payload = s.wm_delete_window then
        .emit .closed { s with is_closed := true }
      else
        .emit .awakened s
  | .configureNotify w h =>
      if s.current_size.1 != w || s.current_size.2 != h then
        .emit (.resized (u32cast w) (u32cast h)) { s with current_size := (w, h) }
      else
        .cont s
  | .expose => .emit .refresh s
  | .motionNotify x y => .emit (.mouseMoved x y) s
  | .keyPress kc dec vk =>
      .emit (.keyboardInput .pressed (u8cast kc) vk)
        { s with pending_events :=
            s.pending_events ++ dec.map Event.receivedCharacter }
  | .keyRelease kc dec vk =>
      .emit (.keyboardInput .released (u8cast kc) vk)
        { s with pending_events :=
            s.pending_events ++ dec.map Event.receivedCharacter }
  | .buttonPress b => process_button .pressed b s
  | .buttonRelease b => process_button .released b s
  | .other => .cont s

/-- The `loop` of `PollEventsIterator::next` (src/x11/window/mod.rs:141-269):
the `XCheckMaskEvent(-1)` / `XCheckTypedEvent(ClientMessage)` pair delivers
the next available native event, modelled as the head of the delivered-event
list; when no event is available the iterator returns `None` without
blocking. -/
def poll_events_loop : PumpState → List XEvent →
    Option Event × PumpState × List XEvent
  | s, [] => (none, s, [])
  | s, xev :: q =>
      match process_event xev s with
      | .emit e s2 => (some e, s2, q)
      | .cont s2 => poll_events_loop s2 q

/-- `PollEventsIterator::next` (src/x11/window/mod.rs:136-270): the pending
queue is drained first; only then is the native queue consulted. -/
def poll_events_next (s : PumpState) (q : List XEvent) :
    Option Event × PumpState × List XEvent :=
  match s.pending_events with
  | e :: rest => (some e, { s with pending_events := rest }, q)
  | [] => poll_events_loop s q

/-- Repeatedly calling `poll_events_next` with an empty native queue, taking
`n` calls and collecting the returned events — the "subsequent drain calls"
of the spec. -/
def poll_drain : Nat → PumpState → List Event
  | 0, _ => []
  | n + 1, s =>
      match poll_events_next s [] with
      | (some e, s2, _) => e :: poll_drain n s2
      | (none, _, _) => []

/-- Result of one `WaitEventsIterator::next` call: an event, the terminal
"no more events" return of the closed window, or a suspension inside
`XPeekEvent` waiting for a native event to arrive. -/
inductive WaitResult where
  | ev (e : Event) (s : PumpState) (q : List XEvent)
  | closedEnd (s : PumpState) (q : List XEvent)
  | blocked (s : PumpState)
  deriving DecidableEq, Repr

/-- `WaitEventsIterator::next` (src/x11/window/mod.rs:280-300): while the
window is not closed, drain the pending queue, otherwise block on
`XPeekEvent` and re-run the non-blocking poll.  A poll that consumes the
whole queue without emitting leads to one more loop iteration, which pops a
pending event pushed by the consumed records or blocks on the now-empty
queue. -/
def wait_events_next (s : PumpState) (q : List XEvent) : WaitResult :=
  if s.is_closed then .closedEnd s q
  else
    match s.pending_events with
    | e :: rest => .ev e { s with pending_events := rest } q
    | [] =>
        if q.isEmpty then .blocked s
        else
          match poll_events_next s q with
          | (some e, s2, q2) => .ev e s2 q2
          | (none, s2, q2) =>
              if s2.is_closed then .closedEnd s2 q2
              else
                match s2.pending_events with
                | e :: rest => .ev e { s2 with pending_events := rest } q2
                | [] => .blocked s2

/-- Pump state of a freshly constructed window
(src/x11/window/mod.rs:679-683): not closed, cached size `(0, 0)`, empty
pending queue. -/
def initial_pump_state (wm_delete : Int) : PumpState :=
  { is_closed := false, current_size := (0, 0), pending_events := [],
    wm_delete_window := wm_delete }

/-- Feeding a sequence of `ConfigureNotify` records through the per-event
translator, collecting the emitted portable events. -/
def run_configures (s : PumpState) : List (Int × Int) → List Event × PumpState
  | [] => ([], s)
  | d :: rest =>
      match process_event (.configureNotify d.1 d.2) s with
      | .emit e s2 =>
          let r := run_configures s2 rest
          (e :: r.1, r.2)
      | .cont s2 => run_configures s2 rest

/-- Modelled from the spec: the Resized de-duplication described in §8 — keep
a reported geometry only when it differs from the cached size, and make it
the new cache on emission. -/
def dedup_sizes (cache : Int × Int) : List (Int × Int) → List (Int × Int)
  | [] => []
  | d :: rest =>
      if d = cache then dedup_sizes cache rest else d :: dedup_sizes d rest

/-- Whether a native record is the close-protocol client message: its first
long payload equals the registered `WM_DELETE_WINDOW` atom
(src/x11/window/mod.rs:164). -/
def is_close_message (xev : XEvent) (atom : Int) : Bool :=
  match xev with
  | .clientMessage payload => payload == atom
  | _ => false

/-- The button arm never touches the `is_closed` flag. -/
lemma process_button_is_closed (st : ElementState) (b : Nat) (s : PumpState) :
    ((process_button st b s).state).is_closed = s.is_closed := by
  unfold process_button
  rcases b with _ | _ | _ | _ | _ | _ | b <;> rfl

/-- Flag dynamics of one translation step: the new `is_closed` value is the
old one, or-ed with whether the record was the close message. -/
lemma process_event_is_closed (xev : XEvent) (s : PumpState) :
    ((process_event xev s).state).is_closed
      = (s.is_closed || is_close_message xev s.wm_delete_window) := by
  cases xev with
  | keymapNotify => simp [process_event, is_close_message, ProcessResult.state]
  | clientMessage p =>
      by_cases hp : p = s.wm_delete_window <;>
        simp [process_event, is_close_message, hp, ProcessResult.state]
  | configureNotify w h =>
      simp only [process_event, is_close_message]
      split <;> simp [ProcessResult.state]
  | expose => simp [process_event, is_close_message, ProcessResult.state]
  | motionNotify x y =>
      simp [process_event, is_close_message, ProcessResult.state]
  | keyPress kc dec vk =>
      simp [process_event, is_close_message, ProcessResult.state]
  | keyRelease kc dec vk =>
      simp [process_event, is_close_message, ProcessResult.state]
  | buttonPress b =>
      simp [process_event, is_close_message, process_button_is_closed]
  | buttonRelease b =>
      simp [process_event, is_close_message, process_button_is_closed]
  | other => simp [process_event, is_close_message, ProcessResult.state]

/-- The poll loop never resets a true `is_closed` flag. -/
lemma poll_events_loop_closed_mono :
    ∀ (q : List XEvent) (s : PumpState), s.is_closed = true →
      ((poll_events_loop s q).2.1).is_closed = true := by
  intro q
  induction q with
  | nil => intro s h; simpa [poll_events_loop] using h
  | cons xev q ih =>
      intro s h
      cases hpe : process_event xev s with
      | emit e s2 =>
          simp only [poll_events_loop, hpe]
          have hstep := process_event_is_closed xev s
          rw [hpe] at hstep
          simp only [ProcessResult.state] at hstep
          rw [hstep, h]
          simp
      | cont s2 =>
          simp only [poll_events_loop, hpe]
          apply ih
          have hstep := process_event_is_closed xev s
          rw [hpe] at hstep
          simp only [ProcessResult.state] at hstep
          rw [hstep, h]
          simp

/-- `poll_events_next` never resets a true `is_closed` flag. -/
lemma poll_events_next_closed_mono (s : PumpState) (q : List XEvent)
    (h : s.is_closed = true) :
    ((poll_events_next s q).2.1).is_closed = true := by
  unfold poll_events_next
  cases hp : s.pending_events with
  | nil => exact poll_events_loop_closed_mono q s h
  | cons e rest => simpa using h

/-- Successive `poll_events_next` calls on an empty native queue return the
pending queue front to back. -/
lemma poll_drain_pending :
    ∀ (l : List Event) (s : PumpState),
      poll_drain l.length { s with pending_events := l } = l := by
  intro l
  induction l with
  | nil => intro s; rfl
  | cons e rest ih =>
      intro s
      simp only [List.length_cons, poll_drain, poll_events_next]
      exact congrArg (e :: ·) (ih s)

/-- The `ConfigureNotify` arm reformulated with a propositional guard: emit
`Resized` exactly when the reported geometry differs from the cached size,
updating the cache on emission. -/
lemma process_event_configure (w h : Int) (s : PumpState) :
    process_event (.configureNotify w h) s
      = if (w, h) = s.current_size then .cont s
        else .emit (.resized (u32cast w) (u32cast h))
               { s with current_size := (w, h) } := by
  simp only [process_event]
  by_cases hd : (w, h) = s.current_size
  · have h1 : s.current_size.1 = w := by rw [← hd]
    have h2 : s.current_size.2 = h := by rw [← hd]
    simp [h1, h2, hd]
  · rw [if_neg hd]
    have hne : s.current_size.1 ≠ w ∨ s.current_size.2 ≠ h := by
      by_contra hcon
      push_neg at hcon
      exact hd (by rw [Prod.ext_iff]; exact ⟨hcon.1.symm, hcon.2.symm⟩)
    rcases hne with h1 | h2
    · simp [h1]
    · simp [h2]

/-- Running a sequence of configure notifications emits exactly the
de-duplicated subsequence (mapped to `Resized` events), and leaves the cache
at the last emitted geometry (or untouched when nothing was emitted). -/
lemma run_configures_spec :
    ∀ (ds : List (Int × Int)) (s : PumpState),
      (run_configures s ds).1
        = (dedup_sizes s.current_size ds).map
            (fun d => Event.resized (u32cast d.1) (u32cast d.2)) ∧
      (run_configures s ds).2.current_size
        = (dedup_sizes s.current_size ds).getLastD s.current_size := by
  intro ds
  induction ds with
  | nil => intro s; simp [run_configures, dedup_sizes]
  | cons d rest ih =>
      intro s
      obtain ⟨w, h⟩ := d
      simp only [run_configures, process_event_configure]
      by_cases hd : (w, h) = s.current_size
      · rw [if_pos hd]
        simp only [dedup_sizes, if_pos hd]
        exact ih s
      · rw [if_neg hd]
        simp only [dedup_sizes, if_neg hd, List.map_cons, List.getLastD_cons]
        have hrec := ih { s with current_size := (w, h) }
        refine ⟨?_, ?_⟩
        · simpa using congrArg
            (Event.resized (u32cast w) (u32cast h) :: ·) hrec.1
        · simpa using hrec.2

/-- C3: a `Resized(width, height)` event is emitted if and only if the
reported dimensions differ from the cached size — which a fresh window
initializes to `(0, 0)` — the cache being updated to the new dimensions on
emission, so that over any sequence of configure notifications the emitted
events are exactly the de-duplicated subsequence, and repeated notifications
with identical geometry emit nothing after the first. -/
theorem c3_resized_dedup :
    (∀ a : Int, (initial_pump_state a).current_size = (0, 0)) ∧
    (∀ (w h : Int) (s : PumpState),
      process_event (.configureNotify w h) s
        = if (w, h) = s.current_size then .cont s
          else .emit (.resized (u32cast w) (u32cast h))
                 { s with current_size := (w, h) }) ∧
    (∀ (s : PumpState) (ds : List (Int × Int)),
      (run_configures s ds).1
        = (dedup_sizes s.current_size ds).map
            (fun d => Event.resized (u32cast d.1) (u32cast d.2)) ∧
      (run_configures s ds).2.current_size
        = (dedup_sizes s.current_size ds).getLastD s.current_size) :=
  ⟨fun _ => rfl, process_event_configure, fun s ds => run_configures_spec ds s⟩

/-- Translation of one record emits `Closed` exactly for the close-protocol
client message, and then the updated state has `is_closed = true`. -/
lemma process_event_emits_closed (xev : XEvent) (s s2 : PumpState)
    (hemit : process_event xev s = .emit .closed s2) :
    is_close_message xev s.wm_delete_window = true ∧ s2.is_closed = true := by
  cases xev with
  | keymapNotify => simp [process_event] at hemit
  | clientMessage p =>
      by_cases hp : p = s.wm_delete_window
      · simp only [process_event, if_pos hp, ProcessResult.emit.injEq] at hemit
        refine ⟨by simp [is_close_message, hp], ?_⟩
        rw [← hemit.2]
      · simp [process_event, hp] at hemit
  | configureNotify w h =>
      rw [process_event_configure] at hemit
      by_cases hd : (w, h) = s.current_size
      · rw [if_pos hd] at hemit; exact absurd hemit (by simp)
      · rw [if_neg hd] at hemit; simp at hemit
  | expose => simp [process_event] at hemit
  | motionNotify x y => simp [process_event] at hemit
  | keyPress kc dec vk => simp [process_event] at hemit
  | keyRelease kc dec vk => simp [process_event] at hemit
  | buttonPress b =>
      simp only [process_event] at hemit
      unfold process_button at hemit
      rcases b with _ | _ | _ | _ | _ | _ | b <;> simp at hemit
  | buttonRelease b =>
      simp only [process_event] at hemit
      unfold process_button at hemit
      rcases b with _ | _ | _ | _ | _ | _ | b <;> simp at hemit
  | other => simp [process_event] at hemit

/-- C4: the closed flag starts false, is set to true exactly when a client
message carrying the registered close atom is processed (the step that emits
`Closed`), is never reset by any pump step, and once it is true the
blocking-wait iterator immediately returns its terminal result without
reading further events. -/
theorem c4_closed_monotonic :
    (∀ a : Int, (initial_pump_state a).is_closed = false) ∧
    (∀ (xev : XEvent) (s : PumpState),
      ((process_event xev s).state).is_closed
        = (s.is_closed || is_close_message xev s.wm_delete_window)) ∧
    (∀ s : PumpState,
      process_event (.clientMessage s.wm_delete_window) s
        = .emit .closed { s with is_closed := true }) ∧
    (∀ (xev : XEvent) (s s2 : PumpState),
      process_event xev s = .emit .closed s2 →
        is_close_message xev s.wm_delete_window = true ∧
        s2.is_closed = true) ∧
    (∀ (s : PumpState) (q : List XEvent), s.is_closed = true →
      ((poll_events_next s q).2.1).is_closed = true) ∧
    (∀ (s : PumpState) (q : List XEvent), s.is_closed = true →
      wait_events_next s q = .closedEnd s q) := by
  refine ⟨fun _ => rfl, process_event_is_closed, fun s => by simp [process_event],
    process_event_emits_closed, poll_events_next_closed_mono, fun s q h => ?_⟩
  simp [wait_events_next, h]

/-- C4 witness: concrete instances — a fresh window is not closed; processing
the close message on it emits `Closed` with the flag set; and on a closed
state both iterators observe the flag. -/
theorem c4_closed_monotonic_witness :
    (initial_pump_state 7).is_closed = false ∧
    process_event (.clientMessage 7) (initial_pump_state 7)
      = .emit .closed { initial_pump_state 7 with is_closed := true } ∧
    ((poll_events_next
        { is_closed := true, current_size := (0, 0), pending_events := [],
          wm_delete_window := 7 } []).2.1).is_closed = true ∧
    wait_events_next
        { is_closed := true, current_size := (0, 0), pending_events := [],
          wm_delete_window := 7 } []
      = .closedEnd
          { is_closed := true, current_size := (0, 0), pending_events := [],
            wm_delete_window := 7 } [] :=
  ⟨c4_closed_monotonic.1 7, c4_closed_monotonic.2.2.1 (initial_pump_state 7),
   c4_closed_monotonic.2.2.2.2.1 _ [] rfl,
   c4_closed_monotonic.2.2.2.2.2 _ [] rfl⟩

/-- C6: one key-press record that decodes to the characters `dec` makes the
pump return exactly one `KeyboardInput(Pressed, keycode as u8, vkey)` event
immediately, while exactly `dec.length` `ReceivedCharacter` events are
appended to the pending queue as one contiguous block in decode order; with
an empty native queue, subsequent drain calls then deliver the pending queue
front to back, so the characters come out in decode order. -/
theorem c6_keypress_characters :
    (∀ (s : PumpState) (kc : Nat) (dec : List Char) (vk : Option Nat),
      process_event (.keyPress kc dec vk) s
        = .emit (.keyboardInput .pressed (u8cast kc) vk)
            { s with pending_events :=
                s.pending_events ++ dec.map Event.receivedCharacter }) ∧
    (∀ (s : PumpState) (kc : Nat) (dec : List Char) (vk : Option Nat)
        (q : List XEvent),
      poll_events_next { s with pending_events := [] }
          (XEvent.keyPress kc dec vk :: q)
        = (some (.keyboardInput .pressed (u8cast kc) vk),
           { s with pending_events := dec.map Event.receivedCharacter }, q)) ∧
    (∀ (s : PumpState) (dec : List Char),
      poll_drain (dec.map Event.receivedCharacter).length
          { s with pending_events := dec.map Event.receivedCharacter }
        = dec.map Event.receivedCharacter) :=
  ⟨fun _ _ _ _ => rfl, fun _ _ _ _ _ => rfl,
   fun s dec => poll_drain_pending (dec.map Event.receivedCharacter) s⟩

/-- C7: button codes 1/2/3 return `MouseInput` with Left/Middle/Right and do
not touch the pending queue (no `MouseWheel`); button codes 4 and 5 return no
event at all — in particular never a `MouseInput` — and each appends exactly
one `MouseWheel` to the pending queue, `LineDelta(0, +1)` for button 4 and
`LineDelta(0, -1)` for button 5. -/
theorem c7_buttons :
    ∀ (s : PumpState) (st : ElementState),
      process_event (.buttonPress 1) s = .emit (.mouseInput .pressed .left) s ∧
      process_event (.buttonPress 2) s = .emit (.mouseInput .pressed .middle) s ∧
      process_event (.buttonPress 3) s = .emit (.mouseInput .pressed .right) s ∧
      process_event (.buttonRelease 1) s = .emit (.mouseInput .released .left) s ∧
      process_event (.buttonRelease 2) s = .emit (.mouseInput .released .middle) s ∧
      process_event (.buttonRelease 3) s = .emit (.mouseInput .released .right) s ∧
      process_button st 4 s
        = .cont { s with pending_events :=
            s.pending_events ++ [.mouseWheel 0 1] } ∧
      process_button st 5 s
        = .cont { s with pending_events :=
            s.pending_events ++ [.mouseWheel 0 (-1)] } ∧
      (∀ (e : Event) (s2 : PumpState),
        process_button st 4 s ≠ .emit e s2 ∧
        process_button st 5 s ≠ .emit e s2) := by
  intro s st
  refine ⟨rfl, rfl, rfl, rfl, rfl, rfl, rfl, rfl, fun e s2 => ⟨?_, ?_⟩⟩ <;>
    simp [process_button]

/-- The shared proxy target: `{display, window}` handles, or `None` once the
owning window's teardown has revoked it (`Arc<Mutex<Option<WindowProxyData>>>`). -/
structure WindowProxyData where
  display : Nat
  window : Nat
  deriving DecidableEq, Repr

/-- Native calls a `wakeup_event_loop` invocation can issue. -/
inductive XCall where
  | xSendEvent (display window : Nat)
  | xFlush (display : Nat)
  deriving DecidableEq, Repr

/-- Embedding of `WindowProxy::wakeup_event_loop`
(src/x11/window/mod.rs:106-127): lock the shared cell and read the target;
if it is present, build a client message for the target window, send it and
flush; if it has been revoked the body is skipped entirely — no call is
issued, nothing is returned but unit, no error path exists. -/
def wakeup_event_loop (data : Option WindowProxyData) : List XCall :=
  match data with
  | none => []
  | some d => [.xSendEvent d.display d.window, .xFlush d.display]

/-- The fields of `XWindow` that decide teardown behaviour: the fullscreen
flag and the shared proxy cell. -/
structure XWindowModel where
  is_fullscreen : Bool
  window_proxy_data : Option WindowProxyData
  deriving DecidableEq, Repr

/-- The teardown effects of `XWindow::drop`, in program order. -/
inductive DropAction where
  | revokeProxyTarget
  | glxDestroyContext
  | xf86VidModeSwitchToMode
  | xf86VidModeSetViewPort
  | xDestroyIC
  | xCloseIM
  | xDestroyWindow
  | xFreeColormap
  | xCloseDisplay
  deriving DecidableEq, Repr

/-- State threaded through teardown: the shared proxy cell and the trace of
effects performed so far. -/
structure DropState where
  window_proxy_data : Option WindowProxyData
  trace : List DropAction
  deriving DecidableEq, Repr

/-- Embedding of `XWindow::drop` (src/x11/window/mod.rs:75-98), statement by
statement: clear the proxy cell, destroy the GLX context, switch back to the
desktop mode and reset the viewport when fullscreen was active, destroy the
input context, close the input method, destroy the window, free the
colormap, close the display. -/
def xwindow_drop (x : XWindowModel) : DropState :=
  let s0 : DropState := { window_proxy_data := x.window_proxy_data, trace := [] }
  let s1 : DropState :=
    { s0 with window_proxy_data := none,
              trace := s0.trace ++ [DropAction.revokeProxyTarget] }
  let s2 : DropState := { s1 with trace := s1.trace ++ [DropAction.glxDestroyContext] }
  let s3 : DropState :=
    if x.is_fullscreen then
      { s2 with trace := s2.trace ++
          [DropAction.xf86VidModeSwitchToMode, DropAction.xf86VidModeSetViewPort] }
    else s2
  let s4 : DropState := { s3 with trace := s3.trace ++ [DropAction.xDestroyIC] }
  let s5 : DropState := { s4 with trace := s4.trace ++ [DropAction.xCloseIM] }
  let s6 : DropState := { s5 with trace := s5.trace ++ [DropAction.xDestroyWindow] }
  let s7 : DropState := { s6 with trace := s6.trace ++ [DropAction.xFreeColormap] }
  { s7 with trace := s7.trace ++ [DropAction.xCloseDisplay] }

/-- C5: once teardown has revoked the proxy target (every teardown leaves the
cell empty), `wakeup_event_loop` on any clone is a silent no-op: the revoked
branch issues no native call at all and simply returns — there is no error
or failure path in the function. -/
theorem c5_wakeup_after_revoke_noop :
    wakeup_event_loop none = [] ∧
    (∀ x : XWindowModel, (xwindow_drop x).window_proxy_data = none) := by
  refine ⟨rfl, fun x => ?_⟩
  unfold xwindow_drop
  cases hx : x.is_fullscreen <;> simp [hx]

/-- C8: teardown performs its effects in exactly this order — the proxy
target is revoked first (before any native resource is released), then the
rendering context is destroyed, the original display mode is restored when
fullscreen was active, the input context is destroyed, the input method
closed, the window destroyed, the colormap freed, and the connection closed
last. -/
theorem c8_teardown_order :
    ∀ x : XWindowModel,
      (xwindow_drop x).trace
        = [DropAction.revokeProxyTarget, DropAction.glxDestroyContext] ++
          (if x.is_fullscreen then
             [DropAction.xf86VidModeSwitchToMode,
              DropAction.xf86VidModeSetViewPort]
           else []) ++
          [DropAction.xDestroyIC, DropAction.xCloseIM,
           DropAction.xDestroyWindow, DropAction.xFreeColormap,
           DropAction.xCloseDisplay] ∧
      (xwindow_drop x).trace.head? = some DropAction.revokeProxyTarget ∧
      (xwindow_drop x).trace.getLast? = some DropAction.xCloseDisplay ∧
      (xwindow_drop x).window_proxy_data = none := by
  intro x
  unfold xwindow_drop
  cases hx : x.is_fullscreen <;> simp [hx]

/-- GL version request (`GlRequest`): `Specific` with an API other than
OpenGL panics in this backend, so that case is kept separate. -/
inductive GlRequest where
  | latest
  | specificOpenGl (major minor : Nat)
  | specificOtherApi (major minor : Nat)
  | glThenGles (major minor : Nat)
  deriving DecidableEq, Repr

/-- The construction attributes `Window::new` consults (`BuilderAttribs`).
Fields such as the title, multisampling and srgb requests only contribute
data to native calls and never change which construction path is taken. -/
structure BuilderAttribs where
  dimensions : Option (Nat × Nat)
  monitor : Option Nat
  title : String
  visible : Bool
  multisampling : Option Nat
  srgb : Option Bool
  gl_version : GlRequest
  gl_debug : Bool
  vsync : Bool
  strict : Bool
  deriving DecidableEq, Repr

/-- Framebuffer-configuration attributes read back through
`glx::GetFBConfigAttrib` when building the pixel format. -/
inductive FBAttrib where
  | redSize
  | greenSize
  | blueSize
  | alphaSize
  | depthSize
  | stencilSize
  | stereo
  | doublebuffer
  | sampleBuffers
  | samples
  | srgbCapable
  deriving DecidableEq, Repr

/-- Outcomes of the native calls `Window::new` performs, in the order the
construction consults them.  Each field records what the corresponding
foreign call would return in the environment under consideration. -/
structure NativeEnv where
  openDisplayOk : Bool
  chooseFBConfigOk : Bool
  modeLines : Option (List (Nat × Nat))
  getVisualOk : Bool
  getAttrib : FBAttrib → Int
  wmDeleteAtom : Int
  xOpenIMOk : Bool
  xCreateICOk : Bool
  detectableAutoRepeatSupported : Bool
  createContextAttribsLoaded : Bool
  createContextAttribsNull : Bool
  createContextNull : Bool
  swapIntervalEXTLoaded : Bool
  queriedSwapInterval : Nat
  swapIntervalSGILoaded : Bool

/-- `as u8` cast of a C `int` attribute value. -/
def u8castInt (i : Int) : Nat := (i % (2 ^ 8 : Int)).toNat

/-- `as u16` cast of a C `int` attribute value. -/
def u16castInt (i : Int) : Nat := (i % (2 ^ 16 : Int)).toNat

/-- The pixel format descriptor assembled at construction
(src/x11/window/mod.rs:412-434), immutable afterwards. -/
structure PixelFormat where
  hardware_accelerated : Bool
  red_bits : Nat
  green_bits : Nat
  blue_bits : Nat
  alpha_bits : Nat
  depth_bits : Nat
  stencil_bits : Nat
  stereoscopy : Bool
  double_buffer : Bool
  multisampling : Option Nat
  srgb : Bool
  deriving DecidableEq, Repr

/-- Querying the chosen pixel format from the framebuffer configuration
(src/x11/window/mod.rs:412-434). -/
def mk_pixel_format (getAttrib : FBAttrib → Int) : PixelFormat :=
  { hardware_accelerated := true,
    red_bits := u8castInt (getAttrib .redSize),
    green_bits := u8castInt (getAttrib .greenSize),
    blue_bits := u8castInt (getAttrib .blueSize),
    alpha_bits := u8castInt (getAttrib .alphaSize),
    depth_bits := u8castInt (getAttrib .depthSize),
    stencil_bits := u8castInt (getAttrib .stencilSize),
    stereoscopy := getAttrib .stereo != 0,
    double_buffer := getAttrib .doublebuffer != 0,
    multisampling :=
      if getAttrib .sampleBuffers != 0 then
        some (u16castInt (getAttrib .samples))
      else none,
    srgb := getAttrib .srgbCapable != 0 }

/-- The native resources `Window::new` acquires, in acquisition order. -/
inductive Resource where
  | display
  | colormap
  | window
  | inputMethod
  | inputContext
  | glContext
  deriving DecidableEq, Repr

/-- Error kinds of construction, one per `return Err(OsError(...))` site of
`Window::new` (the concrete type is `CreationError::OsError` with a distinct
message at every site). -/
inductive CreationErrorKind where
  | xOpenDisplayFailed
  | chooseFBConfigFailed
  | queryVideoModesFailed
  | modeNotFound
  | chooseVisualFailed
  | xOpenIMFailed
  | xCreateICFailed
  | detectableAutoRepeatFailed
  | glContextCreationFailed
  | vsyncIntervalMismatch (interval : Nat)
  | noVsyncExtension
  deriving DecidableEq, Repr

/-- The assembled `Window` value (src/x11/window/mod.rs:666-685): the pump
state (closed flag, cached size, pending queue, close atom), the cursor
state, the immutable pixel format, and the fullscreen flag recorded in the
`XWindow`. -/
structure WindowModel where
  pump : PumpState
  cursor_state : CursorState
  pixel_format : PixelFormat
  is_fullscreen : Bool
  deriving DecidableEq, Repr

/-- How `Window::new` can end: with a window, with a `CreationError`, or by
panicking (the `Only OpenGL is supported` path). -/
inductive NewOutcome where
  | ok (w : WindowModel)
  | creationError (k : CreationErrorKind)
  | panicked
  deriving DecidableEq, Repr

/-- Result of `Window::new` together with the native resources still
allocated when it returns (owned by the window on success; not released by
the early `return Err` paths). -/
structure NewResult where
  outcome : NewOutcome
  allocated : List Resource
  deriving DecidableEq, Repr

/-- Whether a video mode line matches the requested dimensions
(src/x11/window/mod.rs:385): `hdisplay`/`vdisplay` are `u16`, the requested
dimensions `u32`, compared after an `as u16` cast. -/
def matches_mode (mode : Nat × Nat) (dims : Nat × Nat) : Bool :=
  mode.1 == dims.1 % 2 ^ 16 && mode.2 == dims.2 % 2 ^ 16

/-- The `best_mode` scan (src/x11/window/mod.rs:383-388): iterate over all
mode lines, remembering the index of the last match; `none` plays the role
of the initial `-1`. -/
def find_best_mode_go (dims : Nat × Nat) :
    Nat → Option Nat → List (Nat × Nat) → Option Nat
  | _, acc, [] => acc
  | i, acc, m :: rest =>
      find_best_mode_go dims (i + 1)
        (if matches_mode m dims then some i else acc) rest

/-- Index of the video mode `Window::new` selects for the requested
dimensions, if any. -/
def find_best_mode (modes : List (Nat × Nat)) (dims : Nat × Nat) : Option Nat :=
  find_best_mode_go dims 0 none modes

/-- Embedding of `Window::new` (src/x11/window/mod.rs:315-689).  Every
`return Err(...)` site returns with exactly the resources acquired so far
still allocated — the source performs no cleanup before an early return.
Side-effect-only calls (`XMapRaised`, `XInternAtom`, `XSetWMProtocols`,
`XStoreName`, `XSetClassHint`, the fullscreen mode switch, making the
context current for vsync setup) do not change the allocation set and are
not modelled as resources. -/
def window_new (b : BuilderAttribs) (env : NativeEnv) : NewResult :=
  let dimensions := b.dimensions.getD (800, 600)
  if !env.openDisplayOk then
    { outcome := .creationError .xOpenDisplayFailed, allocated := [] }
  else if !env.chooseFBConfigOk then
    { outcome := .creationError .chooseFBConfigFailed, allocated := [.display] }
  else
    match env.modeLines with
    | none =>
        { outcome := .creationError .queryVideoModesFailed,
          allocated := [.display] }
    | some modes =>
        let best_mode := find_best_mode modes dimensions
        if best_mode.isNone && b.monitor.isSome then
          { outcome := .creationError .modeNotFound, allocated := [.display] }
        else if !env.getVisualOk then
          { outcome := .creationError .chooseVisualFailed,
            allocated := [.display] }
        else
          let pixel_format := mk_pixel_format env.getAttrib
          if !env.xOpenIMOk then
            { outcome := .creationError .xOpenIMFailed,
              allocated := [.display, .colormap, .window] }
          else if !env.xCreateICOk then
            { outcome := .creationError .xCreateICFailed,
              allocated := [.display, .colormap, .window, .inputMethod] }
          else if !env.detectableAutoRepeatSupported then
            { outcome := .creationError .detectableAutoRepeatFailed,
              allocated := [.display, .colormap, .window, .inputMethod,
                            .inputContext] }
          else
            match b.gl_version with
            | .specificOtherApi _ _ =>
                { outcome := .panicked,
                  allocated := [.display, .colormap, .window, .inputMethod,
                                .inputContext] }
            | _ =>
                let arbNull :=
                  !env.createContextAttribsLoaded ||
                    env.createContextAttribsNull
                if arbNull && env.createContextNull then
                  { outcome := .creationError .glContextCreationFailed,
                    allocated := [.display, .colormap, .window, .inputMethod,
                                  .inputContext] }
                else
                  let allocated := [Resource.display, .colormap, .window,
                                    .inputMethod, .inputContext, .glContext]
                  let okResult : NewResult :=
                    { outcome := .ok
                        { pump := initial_pump_state env.wmDeleteAtom,
                          cursor_state := .normal,
                          pixel_format := pixel_format,
                          is_fullscreen := b.monitor.isSome },
                      allocated := allocated }
                  if b.vsync then
                    if env.swapIntervalEXTLoaded then
                      if b.strict && env.queriedSwapInterval != 1 then
                        { outcome := .creationError
                            (.vsyncIntervalMismatch env.queriedSwapInterval),
                          allocated := allocated }
                      else okResult
                    else if env.swapIntervalSGILoaded then okResult
                    else if b.strict then
                      { outcome := .creationError .noVsyncExtension,
                        allocated := allocated }
                    else okResult
                  else okResult

/-- When no mode line matches, the `best_mode` accumulator stays at its
initial `-1` (here `none`). -/
lemma find_best_mode_go_none (dims : Nat × Nat) :
    ∀ (ms : List (Nat × Nat)) (i : Nat),
      (∀ m ∈ ms, matches_mode m dims = false) →
      find_best_mode_go dims i none ms = none := by
  intro ms
  induction ms with
  | nil => intro i h; rfl
  | cons m rest ih =>
      intro i h
      have hm : matches_mode m dims = false := h m (by simp)
      simp only [find_best_mode_go, hm, Bool.false_eq_true, if_false]
      exact ih (i + 1) (fun m2 hm2 => h m2 (by simp [hm2]))

/-- No matching mode line means no selected mode. -/
lemma find_best_mode_none (modes : List (Nat × Nat)) (dims : Nat × Nat)
    (h : ∀ m ∈ modes, matches_mode m dims = false) :
    find_best_mode modes dims = none :=
  find_best_mode_go_none dims modes 0 h

/-- Concrete construction input for the C1 scenario: an explicit monitor and
target dimensions `(100, 100)` that match no enumerated video mode. -/
def c1_builder : BuilderAttribs :=
  { dimensions := some (100, 100), monitor := some 0, title := "",
    visible := false, multisampling := none, srgb := none,
    gl_version := .latest, gl_debug := false, vsync := false,
    strict := false }

/-- Native environment for the C1 scenario: the display opens and the
framebuffer configuration is found, and the only video mode line is
`800×600`. -/
def c1_env : NativeEnv :=
  { openDisplayOk := true, chooseFBConfigOk := true,
    modeLines := some [(800, 600)], getVisualOk := true,
    getAttrib := fun _ => 8, wmDeleteAtom := 1, xOpenIMOk := true,
    xCreateICOk := true, detectableAutoRepeatSupported := true,
    createContextAttribsLoaded := true, createContextAttribsNull := false,
    createContextNull := false, swapIntervalEXTLoaded := true,
    queriedSwapInterval := 1, swapIntervalSGILoaded := false }

/-- C1 counterexample: at a construction input with an explicit monitor and
dimensions matching no video mode, `Window::new` returns the mode-not-found
error, yet the display connection acquired before the failing step is still
allocated — the claimed release of already-acquired resources does not
happen (the source returns `Err` with no cleanup). -/
theorem c1_error_releases_nothing :
    ¬ ((window_new c1_builder c1_env).outcome
          = .creationError .modeNotFound →
       (window_new c1_builder c1_env).allocated = []) := by
  decide

/-- C1 (amended): with an explicit monitor and target dimensions matching no
enumerated video mode, `Window::new` fails with the mode-not-found error
kind and no (partial) window is returned; however the display connection
opened before the failing step is not released — it is exactly the resource
still allocated when the error is returned. -/
theorem c1_mode_not_found_typed_error (b : BuilderAttribs) (env : NativeEnv)
    (m : Nat) (modes : List (Nat × Nat))
    (h1 : env.openDisplayOk = true) (h2 : env.chooseFBConfigOk = true)
    (h3 : env.modeLines = some modes) (h4 : b.monitor = some m)
    (h5 : ∀ md ∈ modes,
      matches_mode md (b.dimensions.getD (800, 600)) = false) :
    window_new b env
      = { outcome := .creationError .modeNotFound,
          allocated := [.display] } ∧
    ∀ w, (window_new b env).outcome ≠ .ok w := by
  have hbm : find_best_mode modes (b.dimensions.getD (800, 600)) = none :=
    find_best_mode_none _ _ h5
  constructor
  · simp [window_new, h1, h2, h3, h4, hbm]
  · intro w
    simp [window_new, h1, h2, h3, h4, hbm]

/-- C1 witness: the amended theorem applied to the concrete scenario. -/
theorem c1_mode_not_found_typed_error_witness :
    window_new c1_builder c1_env
      = { outcome := .creationError .modeNotFound,
          allocated := [.display] } ∧
    ∀ w, (window_new c1_builder c1_env).outcome ≠ .ok w :=
  c1_mode_not_found_typed_error c1_builder c1_env 0 [(800, 600)]
    rfl rfl rfl rfl (by decide)

/-- C9: with vsync requested and every step before vsync negotiation
succeeding, strict mode makes construction fail — with the no-extension
context error when neither swap-control extension is loaded, and with the
interval-mismatch context error when the primary extension is loaded but the
verified swap interval is not 1; without strict mode neither condition fails
construction. -/
theorem c9_strict_vsync_errors (b : BuilderAttribs) (env : NativeEnv)
    (modes : List (Nat × Nat))
    (h1 : env.openDisplayOk = true) (h2 : env.chooseFBConfigOk = true)
    (h3 : env.modeLines = some modes) (h4 : b.monitor = none)
    (h5 : env.getVisualOk = true) (h6 : env.xOpenIMOk = true)
    (h7 : env.xCreateICOk = true)
    (h8 : env.detectableAutoRepeatSupported = true)
    (h9 : b.gl_version = .latest)
    (h10 : env.createContextAttribsLoaded = true)
    (h11 : env.createContextAttribsNull = false)
    (h12 : b.vsync = true) :
    ((b.strict = true ∧ env.swapIntervalEXTLoaded = false ∧
        env.swapIntervalSGILoaded = false) →
      (window_new b env).outcome = .creationError .noVsyncExtension) ∧
    ((b.strict = true ∧ env.swapIntervalEXTLoaded = true ∧
        env.queriedSwapInterval ≠ 1) →
      (window_new b env).outcome
        = .creationError (.vsyncIntervalMismatch env.queriedSwapInterval)) ∧
    (b.strict = false → ∃ w, (window_new b env).outcome = .ok w) := by
  refine ⟨fun ⟨hs, he, hg⟩ => ?_, fun ⟨hs, he, hq⟩ => ?_, fun hs => ?_⟩
  · simp [window_new, h1, h2, h3, h4, h5, h6, h7, h8, h9, h10, h11, h12,
      hs, he, hg]
  · simp [window_new, h1, h2, h3, h4, h5, h6, h7, h8, h9, h10, h11, h12,
      hs, he, hq, bne_iff_ne]
  · by_cases hext : env.swapIntervalEXTLoaded = true
    · simp [window_new, h1, h2, h3, h4, h5, h6, h7, h8, h9, h10, h11, h12,
        hs, hext]
    · by_cases hsgi : env.swapIntervalSGILoaded = true
      · simp [window_new, h1, h2, h3, h4, h5, h6, h7, h8, h9, h10, h11, h12,
          hs, hext, hsgi]
      · simp [window_new, h1, h2, h3, h4, h5, h6, h7, h8, h9, h10, h11, h12,
          hs, hext, hsgi]

/-- Concrete construction input for the C9 scenario: vsync and strict mode
requested. -/
def c9_builder : BuilderAttribs :=
  { dimensions := none, monitor := none, title := "", visible := true,
    multisampling := none, srgb := none, gl_version := .latest,
    gl_debug := false, vsync := true, strict := true }

/-- Native environment for the C9 scenario: all construction steps succeed,
but no swap-control extension is loaded. -/
def c9_env : NativeEnv :=
  { openDisplayOk := true, chooseFBConfigOk := true,
    modeLines := some [(800, 600)], getVisualOk := true,
    getAttrib := fun _ => 8, wmDeleteAtom := 1, xOpenIMOk := true,
    xCreateICOk := true, detectableAutoRepeatSupported := true,
    createContextAttribsLoaded := true, createContextAttribsNull := false,
    createContextNull := false, swapIntervalEXTLoaded := false,
    queriedSwapInterval := 0, swapIntervalSGILoaded := false }

/-- C9 witness: the theorem applied to the concrete strict-vsync scenario. -/
theorem c9_strict_vsync_errors_witness :
    ((c9_builder.strict = true ∧ c9_env.swapIntervalEXTLoaded = false ∧
        c9_env.swapIntervalSGILoaded = false) →
      (window_new c9_builder c9_env).outcome
        = .creationError .noVsyncExtension) ∧
    ((c9_builder.strict = true ∧ c9_env.swapIntervalEXTLoaded = true ∧
        c9_env.queriedSwapInterval ≠ 1) →
      (window_new c9_builder c9_env).outcome
        = .creationError (.vsyncIntervalMismatch c9_env.queriedSwapInterval)) ∧
    (c9_builder.strict = false →
      ∃ w, (window_new c9_builder c9_env).outcome = .ok w) :=
  c9_strict_vsync_errors c9_builder c9_env [(800, 600)]
    rfl rfl rfl rfl rfl rfl rfl rfl rfl rfl rfl rfl
